import Mathlib

/-
Verification development for the j3-flasher-travelbot repository.

The orchestration core of src/flash.py is embedded shallowly below.
External effects are made explicit:
  a file system is a list of the names of the files that exist,
  network behaviour is a triple of functions giving per URL whether the
  connection succeeds, which HTTP status is returned, and whether the
  streamed transfer completes, and
  everything the program does outwardly is recorded as a list of events
  in program order, one constructor per kind of side effect.
String handling mirrors the Python source: str.strip, str.splitlines,
str.lower, substring containment via the in operator, and the name of the
final path segment as computed by pathlib.Path. Only ASCII whitespace and
the common line terminators are modelled, which covers every string the
program produces or parses.
-/

namespace Flasher

/-- One observable side effect of the program, in program order:
a log line, an HTTP GET, an external tool invocation, or a GUI dialog. -/
inductive Event where
  | log (msg : String)
  | request (url : String)
  | toolRun (tool : String) (args : List String)
  | showInfo (title msg : String)
  | showError (title msg : String)
  deriving DecidableEq, Repr

/-- The whitespace characters removed by Python str.strip on the strings
this program handles. -/
def isPySpace (c : Char) : Bool :=
  c = ' ' || c = '\t' || c = '\n' || c = '\r' || c = '\x0b' || c = '\x0c'

/-- Python str.strip on a character list: drop whitespace at both ends. -/
def stripChars (s : List Char) : List Char :=
  ((s.dropWhile isPySpace).reverse.dropWhile isPySpace).reverse

/-- Python str.strip. -/
def pyStrip (s : String) : String :=
  String.mk (stripChars s.data)

/-- Worker for splitlines: accumulates the current line in reverse.
A line terminator emits the line; a final unterminated line is emitted
only when nonempty, matching Python where a trailing terminator does not
produce an extra empty element. -/
def splitlinesGo (acc : List Char) : List Char → List (List Char)
  | [] => if acc.isEmpty then [] else [acc.reverse]
  | '\r' :: '\n' :: rest => acc.reverse :: splitlinesGo [] rest
  | '\r' :: rest => acc.reverse :: splitlinesGo [] rest
  | '\n' :: rest => acc.reverse :: splitlinesGo [] rest
  | c :: rest => splitlinesGo (c :: acc) rest

/-- Python str.splitlines restricted to the newline and carriage return
terminators that occur in tool output. -/
def splitlines (s : List Char) : List (List Char) :=
  splitlinesGo [] s

/-- Bool test that `pat` is a prefix of `s`. -/
def isPrefixOfChars : List Char → List Char → Bool
  | [], _ => true
  | _ :: _, [] => false
  | a :: as, b :: bs => a == b && isPrefixOfChars as bs

/-- Bool test that `pat` occurs as a contiguous substring of `s`;
this is the semantics of the Python `in` operator on strings. -/
def containsSubChars (pat : List Char) : List Char → Bool
  | [] => pat.isEmpty
  | c :: rest => isPrefixOfChars pat (c :: rest) || containsSubChars pat rest

/-- Python substring containment `pat in s`. -/
def containsSubstr (pat s : String) : Bool :=
  containsSubChars pat.data s.data

/-- Python str.lower on the ASCII strings the program compares. -/
def pyLower (s : String) : String :=
  String.mk (s.data.map Char.toLower)

/-- Worker splitting a character list on the slash separator. -/
def splitOnSlashGo (acc : List Char) : List Char → List (List Char)
  | [] => [acc.reverse]
  | '/' :: rest => acc.reverse :: splitOnSlashGo [] rest
  | c :: rest => splitOnSlashGo (c :: acc) rest

/-- Split a character list on slashes. -/
def splitOnSlash (s : List Char) : List (List Char) :=
  splitOnSlashGo [] s

/-- The final path component of a URL or path string, as computed by
pathlib: empty segments produced by repeated or trailing slashes are
dropped and the last remaining segment is the name. -/
def pathName (url : String) : String :=
  String.mk (((splitOnSlash url.data).filter (fun seg => !seg.isEmpty)).getLastD [])

/-- device_connected from src/flash.py lines 275 to 279: strip the
adb devices output, split it into lines, and count any nonblank line
after the header as an attached device. -/
def device_connected (stdout : String) : Bool :=
  let lines := splitlines (stripChars stdout.data)
  let devices := (lines.drop 1).filter (fun l => !(stripChars l).isEmpty)
  decide (0 < devices.length)

/-- A device profile record as stored under a model key in
device_config.json; the pipeline reads the recovery and ROM URLs. -/
structure Profile where
  recovery_url : String
  rom_url : String
  deriving DecidableEq, Repr

/-- First match association lookup, the semantics of dict.get on the
parsed JSON object. -/
def lookupKey (k : String) : List (String × Profile) → Option Profile
  | [] => none
  | (k₁, v) :: rest => if k₁ = k then some v else lookupKey k rest

/-- load_profile from src/flash.py lines 282 to 287: none when the
config file does not exist, otherwise the entry stored under the fixed
key SM-J320FN. -/
def load_profile (configExists : Bool) (config : List (String × Profile)) : Option Profile :=
  if configExists then lookupKey "SM-J320FN" config else none

/-- Modelled from the spec: model detection is not part of src/flash.py
(the source detects download mode with heimdall but never queries a
device property for the model). Per spec section 4.4, DetectModel issues
a primary device property query, falls back to a secondary property when
the primary result is empty, and reports NoDeviceDetected (none) when
both are empty. -/
def DetectModel (primaryProp secondaryProp : String) : Option String :=
  let model := if primaryProp = "" then secondaryProp else primaryProp
  if model = "" then none else some model

/-- The fixed TWRP image URL from src/flash.py line 32. -/
def TWRP_URL : String := "https://eu.dl.twrp.me/j3lte/twrp-3.7.0_9-0-j3lte.img"

/-- The fixed TWRP image destination from src/flash.py line 33. -/
def TWRP_IMG : String := "twrp-j3lte.img"

/-- The platform dependent adb binary name from src/flash.py line 50. -/
def adbName (isWindows : Bool) : String :=
  if isWindows then "adb.exe" else "adb"

/-- The platform dependent heimdall binary name from src/flash.py line 51. -/
def heimdallName (isWindows : Bool) : String :=
  if isWindows then "heimdall.exe" else "heimdall"

/-- The platform tools archive URL built in download_platform_tools,
src/flash.py lines 85 and 86. -/
def platformToolsUrl (isWindows : Bool) : String :=
  "https://dl.google.com/android/repository/platform-tools-latest-"
    ++ (if isWindows then "windows" else "linux") ++ ".zip"

/-- The path of the bundled adb binary, Path of platform-tools joined
with the adb name, src/flash.py line 109. -/
def localAdb (isWindows : Bool) : String :=
  "platform-tools/" ++ adbName isWindows

/-- The adb path resolution of adb_command, src/flash.py line 271: the
binary found on the search path, else the bundled copy. -/
def adbPath (isWindows : Bool) (whichAdb : Option String) : String :=
  match whichAdb with
  | some p => p
  | none => localAdb isWindows

/-- The diagnostic text appended by flash_recovery for known transport
or protocol failures, src/flash.py lines 223 to 227. -/
def hintText : String :=
  "\n\nGebruik een originele USB-datakabel.\n"
    ++ "Vermijd USB-hubs, zet het toestel opnieuw in Download Mode\n"
    ++ "en stop eventueel ModemManager: `sudo systemctl stop ModemManager`"

/-- The success dialog text of flash_recovery, src/flash.py lines 235 to 243. -/
def twrpSuccessMsg : String :=
  "✅ TWRP succesvol geflasht!\n\n"
    ++ "⚠️ BELANGRIJK: Houd nu Power + Home + Volume Up ingedrukt totdat "
    ++ "het Samsung-logo verschijnt om direct in TWRP te booten. Doe dit "
    ++ "voordat het toestel normaal opstart, anders wordt TWRP overschreven."

/-- The test of src/flash.py lines 219 to 222: whether the lowered
failure output contains one of the two known transport or protocol
failure substrings. -/
def protocolHintTriggered (outputText : String) : Bool :=
  containsSubstr "protocol initialisation failed" (pyLower outputText)
    || containsSubstr "failed to receive session end confirmation" (pyLower outputText)

/-- flash_recovery from src/flash.py lines 200 to 244, given that the
heimdall process started: `rc` is the process exit status and `rawLines`
the lines read from its combined stdout and stderr. Each line is
stripped as it is read and logged; the joined stripped lines form the
output text. Returns the Python return value and the event list. -/
def flash_recovery (hname : String) (rc : Int) (rawLines : List String) (img : String) :
    Bool × List Event :=
  let lines := rawLines.map pyStrip
  let startEvents :=
    Event.log "⚡ Flashing TWRP..."
      :: Event.toolRun hname ["flash", "--RECOVERY", img, "--no-reboot"]
      :: lines.map Event.log
  let outputText := String.intercalate "\n" lines
  if rc ≠ 0 then
    let errorText :=
      if protocolHintTriggered outputText then outputText ++ hintText else outputText
    (false, startEvents ++ [Event.showError "Flash Failed" errorText])
  else if containsSubstr "RECOVERY upload successful" outputText = false then
    (false, startEvents ++ [Event.showError "Flash Failed" outputText])
  else
    (true, startEvents ++ [Event.showInfo "TWRP Geflasht" twrpSuccessMsg])

deriving instance DecidableEq for Except

/-- Result of one effectful step: the file system afterwards, the events
emitted, and either normal return or the message of the Python exception
raised. -/
structure StepOut where
  fs : List String
  events : List Event
  res : Except String Unit
  deriving DecidableEq, Repr

/-- download_file from src/flash.py lines 290 to 301. The cache
directory creation has no observable effect in the file model. When the
destination exists the function returns at once with no request. On a
miss one GET is issued; a connection failure or a status other than 200
raises before the destination is opened, while a transport failure
during streaming leaves a partial destination file behind. -/
def download_file (co : String → Bool) (st : String → Nat) (tr : String → Bool)
    (url dest : String) (fs : List String) : StepOut :=
  if dest ∈ fs then
    { fs := fs
      events := [Event.log (dest ++ " already exists, skipping download")]
      res := Except.ok () }
  else
    let evs := [Event.log ("Downloading " ++ url), Event.request url]
    if co url = false then
      { fs := fs, events := evs, res := Except.error ("connection error: " ++ url) }
    else if st url ≠ 200 then
      { fs := fs, events := evs, res := Except.error ("Failed to download " ++ url) }
    else if tr url then
      { fs := dest :: fs, events := evs, res := Except.ok () }
    else
      { fs := dest :: fs, events := evs, res := Except.error ("transport error: " ++ url) }

/-- download_twrp from src/flash.py lines 184 to 197: returns at once
when the fixed image file is already present, otherwise downloads it
from the fixed URL with the same failure behaviour as download_file. -/
def download_twrp (co : String → Bool) (st : String → Nat) (tr : String → Bool)
    (fs : List String) : StepOut :=
  if TWRP_IMG ∈ fs then
    { fs := fs
      events := [Event.log (TWRP_IMG ++ " already present.")]
      res := Except.ok () }
  else
    let evs := [Event.log ("Downloading TWRP from " ++ TWRP_URL), Event.request TWRP_URL]
    if co TWRP_URL = false then
      { fs := fs, events := evs, res := Except.error ("connection error: " ++ TWRP_URL) }
    else if st TWRP_URL ≠ 200 then
      { fs := fs, events := evs, res := Except.error "Failed to download TWRP image" }
    else if tr TWRP_URL then
      { fs := TWRP_IMG :: fs
        events := evs ++ [Event.log "TWRP download complete."]
        res := Except.ok () }
    else
      { fs := TWRP_IMG :: fs, events := evs, res := Except.error ("transport error: " ++ TWRP_URL) }

/-- download_platform_tools from src/flash.py lines 84 to 101: one GET
of the host specific archive; a status other than 200 raises the fixed
RuntimeError message; on success the archive is extracted (modelled by
the bundled adb binary appearing) and the archive file removed. -/
def download_platform_tools (isWindows : Bool) (co : String → Bool) (st : String → Nat)
    (tr : String → Bool) (fs : List String) : StepOut :=
  let url := platformToolsUrl isWindows
  let evs := [Event.log ("Downloading platform tools from " ++ url), Event.request url]
  if co url = false then
    { fs := fs, events := evs, res := Except.error ("connection error: " ++ url) }
  else if st url ≠ 200 then
    { fs := fs, events := evs, res := Except.error "Failed to download platform tools" }
  else if tr url then
    { fs := localAdb isWindows :: fs
      events := evs ++ [Event.log "Extracting platform tools...", Event.log "Platform tools ready."]
      res := Except.ok () }
  else
    { fs := "platform-tools.zip" :: fs, events := evs, res := Except.error ("transport error: " ++ url) }

/-- ensure_adb from src/flash.py lines 104 to 114: a binary on the
search path wins, then a bundled copy, and only when both are absent is
provisioning attempted once. -/
def ensure_adb (isWindows : Bool) (whichAdb : Option String) (co : String → Bool)
    (st : String → Nat) (tr : String → Bool) (fs : List String) : StepOut :=
  match whichAdb with
  | some _ =>
    { fs := fs, events := [Event.log "ADB found on system."], res := Except.ok () }
  | none =>
    if localAdb isWindows ∈ fs then
      { fs := fs, events := [Event.log "Using local platform-tools binaries."], res := Except.ok () }
    else
      let d := download_platform_tools isWindows co st tr fs
      { fs := d.fs
        events := Event.log "ADB not found, downloading platform tools..." :: d.events
        res := d.res }

/-- The URLs of the HTTP requests among a list of events. -/
def reqsOf : List Event → List String
  | [] => []
  | Event.request u :: rest => u :: reqsOf rest
  | _ :: rest => reqsOf rest

/-- The error dialogs among a list of events, as title and message pairs. -/
def shownErrors : List Event → List (String × String)
  | [] => []
  | Event.showError t m :: rest => (t, m) :: shownErrors rest
  | _ :: rest => shownErrors rest

/-- The outside world a pipeline run observes: tool lookup results, the
network, the adb devices listing, the profile store, the heimdall flash
outcome, and the device state. The bootloader unlock state is part of
the device, whether or not the program ever inspects it. -/
structure World where
  isWindows : Bool
  whichAdb : Option String
  connectOk : String → Bool
  httpStatus : String → Nat
  transportOk : String → Bool
  adbDevicesStdout : String
  configExists : Bool
  config : List (String × Profile)
  heimdallAvailable : Bool
  heimdallRc : Int
  heimdallOutput : List String
  bootloaderUnlocked : Bool

/-- The events of the except branch of flash_process, src/flash.py
lines 494 to 496: the error dialog and the error log line. -/
def exceptEvents (msg : String) : List Event :=
  [Event.showError "Error" msg, Event.log ("Error: " ++ msg)]

/-- flash_recovery including process startup: when the heimdall binary
is absent, Popen raises FileNotFoundError after the initial log line and
before any tool invocation, src/flash.py lines 202 to 208. -/
def flash_recovery_run (hname : String) (available : Bool) (rc : Int)
    (raw : List String) (img : String) : List Event × Except String Bool :=
  if available then
    let r := flash_recovery hname rc raw img
    (r.2, Except.ok r.1)
  else
    ([Event.log "⚡ Flashing TWRP..."], Except.error ("FileNotFoundError: " ++ hname))

/-- sideload_zip from src/flash.py lines 306 to 310: a log line, two
adb_command invocations through the resolved adb path, and one direct
subprocess run of the bare adb name. -/
def sideload_zip_events (isWindows : Bool) (whichAdb : Option String) (zipPath : String) :
    List Event :=
  [Event.log "Sideloading LineageOS...",
   Event.toolRun (adbPath isWindows whichAdb) ["reboot", "recovery"],
   Event.toolRun (adbPath isWindows whichAdb) ["wait-for-device"],
   Event.toolRun (adbName isWindows) ["sideload", zipPath]]

/-- install_apk from src/flash.py lines 343 to 345. -/
def install_apk_events (isWindows : Bool) (apk : String) : List Event :=
  [Event.log ("Installing APK " ++ apk), Event.toolRun (adbName isWindows) ["install", apk]]

/-- flash_process from src/flash.py lines 471 to 496, the pipeline run:
ensure_adb, the adb devices connection gate, the profile lookup, the two
artifact downloads into the cache (destination name is the final URL
segment), the download mode dialog, flash_recovery (its return value is
ignored by the source), sideload, the optional APK install, and the
final log line. Any exception is caught and reported as the error
dialog plus error log line. Returns the final file system and the full
event list. -/
def flash_process (w : World) (fs : List String) (apkPath : Option String) :
    List String × List Event :=
  let a := ensure_adb w.isWindows w.whichAdb w.connectOk w.httpStatus w.transportOk fs
  match a.res with
  | Except.error e => (a.fs, a.events ++ exceptEvents e)
  | Except.ok _ =>
    let evD := [Event.toolRun (adbPath w.isWindows w.whichAdb) ["devices"]]
    if device_connected w.adbDevicesStdout = false then
      (a.fs, a.events ++ evD ++ [Event.log "No device detected via ADB."])
    else
      match load_profile w.configExists w.config with
      | none => (a.fs, a.events ++ evD ++ [Event.log "Device profile not found."])
      | some p =>
        let recoveryImg := "cache/" ++ pathName p.recovery_url
        let romZip := "cache/" ++ pathName p.rom_url
        let d₁ := download_file w.connectOk w.httpStatus w.transportOk p.recovery_url recoveryImg a.fs
        match d₁.res with
        | Except.error e => (d₁.fs, a.events ++ evD ++ d₁.events ++ exceptEvents e)
        | Except.ok _ =>
          let d₂ := download_file w.connectOk w.httpStatus w.transportOk p.rom_url romZip d₁.fs
          match d₂.res with
          | Except.error e => (d₂.fs, a.events ++ evD ++ d₁.events ++ d₂.events ++ exceptEvents e)
          | Except.ok _ =>
            let evI := [Event.showInfo "Download Mode"
              "Put the phone in Download Mode (Power+Home+Vol Down) and connect it."]
            let f := flash_recovery_run (heimdallName w.isWindows) w.heimdallAvailable
              w.heimdallRc w.heimdallOutput recoveryImg
            match f.2 with
            | Except.error e =>
              (d₂.fs, a.events ++ evD ++ d₁.events ++ d₂.events ++ evI ++ f.1 ++ exceptEvents e)
            | Except.ok _ =>
              let evS := sideload_zip_events w.isWindows w.whichAdb romZip
              let evK := match apkPath with
                | some apk => install_apk_events w.isWindows apk
                | none => []
              (d₂.fs, a.events ++ evD ++ d₁.events ++ d₂.events ++ evI ++ f.1 ++ evS ++ evK
                ++ [Event.log "Flashing complete."])

lemma decide_length_filter_pos_eq_any {α : Type} (p : α → Bool) (l : List α) :
    decide (0 < (l.filter p).length) = l.any p := by
  induction l with
  | nil => rfl
  | cons a t ih =>
    by_cases h : p a = true
    · simp [List.filter_cons, h]
    · simp only [Bool.not_eq_true] at h
      simp [List.filter_cons, h, ih]

lemma shownErrors_append (l₁ l₂ : List Event) :
    shownErrors (l₁ ++ l₂) = shownErrors l₁ ++ shownErrors l₂ := by
  induction l₁ with
  | nil => rfl
  | cons e t ih => cases e <;> simp [shownErrors, ih]

lemma shownErrors_map_log (l : List String) : shownErrors (l.map Event.log) = [] := by
  induction l with
  | nil => rfl
  | cons a t ih => simpa [shownErrors] using ih

lemma shownErrors_map_comp_log {α : Type} (f : α → String) (l : List α) :
    shownErrors (l.map (Event.log ∘ f)) = [] := by
  induction l with
  | nil => rfl
  | cons a t ih => simpa [shownErrors] using ih

/-- Claim C2: flash_recovery reports success exactly when the tool exit
status is zero and the combined (line stripped, newline joined) output
contains the marker RECOVERY upload successful; in particular exit code
zero without the marker is a failure. -/
theorem c2_success_iff_marker (hname : String) (rc : Int) (raw : List String) (img : String) :
    (flash_recovery hname rc raw img).1 = true
      ↔ (rc = 0
          ∧ containsSubstr "RECOVERY upload successful"
              (String.intercalate "\n" (raw.map pyStrip)) = true) := by
  by_cases hrc : rc = 0
  · by_cases hm : containsSubstr "RECOVERY upload successful"
        (String.intercalate "\n" (raw.map pyStrip)) = true
    · simp [flash_recovery, hrc, hm]
    · simp only [Bool.not_eq_true] at hm
      simp [flash_recovery, hrc, hm]
  · simp [flash_recovery, hrc]

/-- Claim C4: DetectModel falls back to the secondary property when the
primary result is empty; with primary empty and secondary j3lte it
returns j3lte, and an empty result after both queries is none
(NoDeviceDetected). -/
theorem c4_model_fallback :
    DetectModel "" "j3lte" = some "j3lte"
      ∧ DetectModel "" "" = none
      ∧ ∀ s : String, DetectModel "" s = (if s = "" then none else some s) := by
  refine ⟨rfl, rfl, fun s => ?_⟩
  simp [DetectModel]

/-- Claim C6: device_connected treats any nonblank line after the header
of the adb devices listing as an attached device: the header only
listing gives false, a listing with one entry gives true, and in general
the result is whether some line after the first is nonblank once
stripped. -/
theorem c6_connection_parsing :
    device_connected "List of devices attached\n" = false
      ∧ device_connected "List of devices attached\nABC123\tdevice\n" = true
      ∧ ∀ s : String,
          device_connected s
            = ((splitlines (stripChars s.data)).drop 1).any
                (fun l => !(stripChars l).isEmpty) := by
  refine ⟨by decide, by decide, fun s => ?_⟩
  unfold device_connected
  exact decide_length_filter_pos_eq_any _ _

/-- Claim C9: load_profile ignores the connected device entirely: it
returns the entry stored under the fixed key SM-J320FN, or none when the
file or that key is absent; an entry stored under any other model key,
including the detected model, is never returned. -/
theorem c9_fixed_key_profile :
    (∀ (ex : Bool) (cfg : List (String × Profile)),
        load_profile ex cfg = if ex then lookupKey "SM-J320FN" cfg else none)
      ∧ (∀ (m : String) (p : Profile),
          load_profile true [(m, p)] = if m = "SM-J320FN" then some p else none)
      ∧ (∀ p q : Profile,
          load_profile true [("j3lte", q), ("SM-J320FN", p)] = some p) := by
  refine ⟨fun ex cfg => rfl, fun m p => ?_, fun p q => ?_⟩
  · simp [load_profile, lookupKey]
  · simp [load_profile, lookupKey]

/-- Claim C3: fetching is idempotent per destination filename. When the
destination already exists, download_file returns at once with no
request; a first successful fetch to the cache destination derived from
the final URL segment issues exactly one request and a second fetch of
the same URL issues none; download_twrp likewise skips the download when
its fixed image is present. -/
theorem c3_idempotent_fetch (co : String → Bool) (st : String → Nat) (tr : String → Bool)
    (url dest : String) (fs : List String) :
    (dest ∈ fs →
        download_file co st tr url dest fs
          = { fs := fs
              events := [Event.log (dest ++ " already exists, skipping download")]
              res := Except.ok () })
      ∧ (("cache/" ++ pathName url) ∉ fs → co url = true → st url = 200 → tr url = true →
          reqsOf (download_file co st tr url ("cache/" ++ pathName url) fs).events = [url]
            ∧ reqsOf (download_file co st tr url ("cache/" ++ pathName url)
                (download_file co st tr url ("cache/" ++ pathName url) fs).fs).events = [])
      ∧ (TWRP_IMG ∈ fs →
          (download_twrp co st tr fs).events = [Event.log (TWRP_IMG ++ " already present.")]) := by
  refine ⟨fun h => ?_, fun h h₁ h₂ h₃ => ?_, fun h => ?_⟩
  · simp [download_file, h]
  · have hfirst : download_file co st tr url ("cache/" ++ pathName url) fs
        = { fs := ("cache/" ++ pathName url) :: fs
            events := [Event.log ("Downloading " ++ url), Event.request url]
            res := Except.ok () } := by
      simp [download_file, h, h₁, h₂, h₃]
    have hmem : ("cache/" ++ pathName url)
        ∈ (download_file co st tr url ("cache/" ++ pathName url) fs).fs := by
      rw [hfirst]; exact List.mem_cons_self _ _
    rw [hfirst]
    simp [download_file, hmem, reqsOf]
  · simp [download_twrp, h]

/-- Claim C3 witness: a concrete two call run with an empty cache and a
succeeding network performs exactly one transfer. -/
theorem c3_idempotent_fetch_witness :
    reqsOf (download_file (fun _ => true) (fun _ => 200) (fun _ => true) "https://x/img.bin"
        ("cache/" ++ pathName "https://x/img.bin") []).events = ["https://x/img.bin"]
      ∧ reqsOf (download_file (fun _ => true) (fun _ => 200) (fun _ => true) "https://x/img.bin"
          ("cache/" ++ pathName "https://x/img.bin")
          (download_file (fun _ => true) (fun _ => 200) (fun _ => true) "https://x/img.bin"
            ("cache/" ++ pathName "https://x/img.bin") []).fs).events = [] :=
  (c3_idempotent_fetch (fun _ => true) (fun _ => 200) (fun _ => true) "https://x/img.bin"
    ("cache/" ++ pathName "https://x/img.bin") []).2.1
    (by simp) rfl rfl rfl

/-- Claim C10: on a connection that returns a status other than 200,
download_file raises the fixed failure message before the destination is
opened, leaving the file system unchanged, so the destination does not
exist after the failure; and a destination file newly present after a
call can only arise once the connection succeeded with status 200. -/
theorem c10_no_partial_on_bad_status (co : String → Bool) (st : String → Nat)
    (tr : String → Bool) (url dest : String) (fs : List String) :
    (dest ∉ fs → co url = true → st url ≠ 200 →
        download_file co st tr url dest fs
          = { fs := fs
              events := [Event.log ("Downloading " ++ url), Event.request url]
              res := Except.error ("Failed to download " ++ url) }
          ∧ dest ∉ (download_file co st tr url dest fs).fs)
      ∧ (dest ∈ (download_file co st tr url dest fs).fs → dest ∉ fs →
          co url = true ∧ st url = 200) := by
  constructor
  · intro h h₁ h₂
    have heq : download_file co st tr url dest fs
        = { fs := fs
            events := [Event.log ("Downloading " ++ url), Event.request url]
            res := Except.error ("Failed to download " ++ url) } := by
      simp [download_file, h, h₁, h₂]
    exact ⟨heq, by rw [heq]; exact h⟩
  · intro hmem hnot
    by_cases h : dest ∈ fs
    · exact absurd h hnot
    · by_cases h₁ : co url = true
      · by_cases h₂ : st url = 200
        · exact ⟨h₁, h₂⟩
        · have : (download_file co st tr url dest fs).fs = fs := by
            simp [download_file, h, h₁, h₂]
          rw [this] at hmem
          exact absurd hmem hnot
      · have h₁f : co url = false := by
          simpa using h₁
        have : (download_file co st tr url dest fs).fs = fs := by
          simp [download_file, h, h₁f]
        rw [this] at hmem
        exact absurd hmem hnot

/-- Claim C10 witness: a 404 on a fresh destination raises the failure
message and leaves no destination file. -/
theorem c10_no_partial_on_bad_status_witness :
    download_file (fun _ => true) (fun _ => 404) (fun _ => true) "https://x/img.bin"
        "cache/img.bin" []
      = { fs := []
          events := [Event.log ("Downloading " ++ "https://x/img.bin"),
                     Event.request "https://x/img.bin"]
          res := Except.error ("Failed to download " ++ "https://x/img.bin") }
      ∧ "cache/img.bin" ∉ (download_file (fun _ => true) (fun _ => 404) (fun _ => true)
          "https://x/img.bin" "cache/img.bin" []).fs :=
  (c10_no_partial_on_bad_status (fun _ => true) (fun _ => 404) (fun _ => true)
    "https://x/img.bin" "cache/img.bin" []).1 (by simp) rfl (by decide)

lemma reqsOf_download_platform_tools (isWindows : Bool) (co : String → Bool)
    (st : String → Nat) (tr : String → Bool) (fs : List String) :
    reqsOf (download_platform_tools isWindows co st tr fs).events = [platformToolsUrl isWindows] := by
  simp only [download_platform_tools]
  split_ifs <;> simp [reqsOf]

/-- Claim C7: adb resolution tries the search path first, then the
bundled platform-tools copy, and only when both are absent provisions
once: the provisioning run issues exactly one request to the platform
tools URL, and a response status other than 200 raises the fixed
RuntimeError without any further attempt. -/
theorem c7_adb_resolution_order (isWindows : Bool) (whichAdb : Option String)
    (co : String → Bool) (st : String → Nat) (tr : String → Bool) (fs : List String) :
    ((∃ p, whichAdb = some p) →
        ensure_adb isWindows whichAdb co st tr fs
          = { fs := fs, events := [Event.log "ADB found on system."], res := Except.ok () })
      ∧ (whichAdb = none → localAdb isWindows ∈ fs →
          ensure_adb isWindows whichAdb co st tr fs
            = { fs := fs
                events := [Event.log "Using local platform-tools binaries."]
                res := Except.ok () })
      ∧ (whichAdb = none → localAdb isWindows ∉ fs →
          reqsOf (ensure_adb isWindows whichAdb co st tr fs).events = [platformToolsUrl isWindows]
            ∧ (co (platformToolsUrl isWindows) = true → st (platformToolsUrl isWindows) ≠ 200 →
                (ensure_adb isWindows whichAdb co st tr fs).res
                  = Except.error "Failed to download platform tools")) := by
  refine ⟨fun ⟨p, hp⟩ => ?_, fun h h₁ => ?_, fun h h₁ => ?_⟩
  · simp [ensure_adb, hp]
  · simp [ensure_adb, h, h₁]
  · subst h
    constructor
    · simp only [ensure_adb, h₁, if_neg]
      simp [reqsOf, reqsOf_download_platform_tools]
    · intro h₂ h₃
      simp [ensure_adb, h₁, download_platform_tools, h₂, h₃]

/-- Claim C7 witness: with no adb on the search path, no bundled copy
and a 500 response, one provisioning request is made and the fixed
RuntimeError is raised. -/
theorem c7_adb_resolution_order_witness :
    reqsOf (ensure_adb false none (fun _ => true) (fun _ => 500) (fun _ => true) []).events
        = [platformToolsUrl false]
      ∧ (ensure_adb false none (fun _ => true) (fun _ => 500) (fun _ => true) []).res
        = Except.error "Failed to download platform tools" := by
  have h := (c7_adb_resolution_order false none (fun _ => true) (fun _ => 500) (fun _ => true)
    []).2.2 rfl (by simp)
  exact ⟨h.1, h.2 rfl (by decide)⟩

/-- Claim C8 counterexample: the claim as stated is false on the code.
An invocation with exit code 0 whose output is exactly the known
substring protocol initialisation failed is classified as a failure
(the success marker is absent), its output contains a known transport
or protocol failure substring, and yet the reported error is the bare
output text with no diagnostic hints appended: the source appends the
hints only on the nonzero exit status branch. -/
theorem c8_counterexample :
    (flash_recovery "heimdall" 0 ["protocol initialisation failed"] "cache/twrp.img").1 = false
      ∧ protocolHintTriggered "protocol initialisation failed" = true
      ∧ shownErrors (flash_recovery "heimdall" 0 ["protocol initialisation failed"]
          "cache/twrp.img").2
        = [("Flash Failed", "protocol initialisation failed")] := by
  refine ⟨by decide, by decide, by decide⟩

/-- Claim C8 as amended: when a recovery flash invocation exits with a
nonzero status and its output contains a known transport or protocol
failure substring (matched case insensitively), the reported error is
the output text with the cable, USB hub and service conflict hints
appended; every other failure, that is a nonzero exit without those
substrings or a zero exit lacking the success marker, is reported
without the hints. -/
theorem c8_amended_hints_on_nonzero_exit (hname : String) (rc : Int) (raw : List String)
    (img : String) :
    (rc ≠ 0 →
        protocolHintTriggered (String.intercalate "\n" (raw.map pyStrip)) = true →
        shownErrors (flash_recovery hname rc raw img).2
          = [("Flash Failed", String.intercalate "\n" (raw.map pyStrip) ++ hintText)])
      ∧ (rc ≠ 0 →
          protocolHintTriggered (String.intercalate "\n" (raw.map pyStrip)) = false →
          shownErrors (flash_recovery hname rc raw img).2
            = [("Flash Failed", String.intercalate "\n" (raw.map pyStrip))])
      ∧ (rc = 0 →
          containsSubstr "RECOVERY upload successful"
              (String.intercalate "\n" (raw.map pyStrip)) = false →
          shownErrors (flash_recovery hname rc raw img).2
            = [("Flash Failed", String.intercalate "\n" (raw.map pyStrip))]) := by
  refine ⟨fun hrc ht => ?_, fun hrc ht => ?_, fun hrc hm => ?_⟩
  · simp [flash_recovery, hrc, ht, shownErrors_append, shownErrors_map_log, shownErrors_map_comp_log, shownErrors]
  · simp [flash_recovery, hrc, ht, shownErrors_append, shownErrors_map_log, shownErrors_map_comp_log, shownErrors]
  · simp [flash_recovery, hrc, hm, shownErrors_append, shownErrors_map_log, shownErrors_map_comp_log, shownErrors]

/-- Claim C8 witness: a nonzero exit whose output contains the protocol
substring is reported with the hints appended. -/
theorem c8_amended_hints_on_nonzero_exit_witness :
    shownErrors (flash_recovery "heimdall" 1 ["ERROR: Protocol initialisation failed!"]
        "cache/twrp.img").2
      = [("Flash Failed",
          String.intercalate "\n" (["ERROR: Protocol initialisation failed!"].map pyStrip)
            ++ hintText)] :=
  (c8_amended_hints_on_nonzero_exit "heimdall" 1 ["ERROR: Protocol initialisation failed!"]
    "cache/twrp.img").1 (by decide) (by decide)

/-- Claim C5: when the tool check succeeds, the device gate passes, and
the profile store has no entry for the fixed model key (or the store
file is absent), the pipeline run is exactly the tool check events, the
single adb devices invocation, and the profile not found log line: it
halts there without any exception event and invokes no further tool and
no download. -/
theorem c5_profile_miss_halts (w : World) (fs : List String) (apk : Option String)
    (h₁ : (ensure_adb w.isWindows w.whichAdb w.connectOk w.httpStatus w.transportOk fs).res
      = Except.ok ())
    (h₂ : device_connected w.adbDevicesStdout = true)
    (h₃ : load_profile w.configExists w.config = none) :
    flash_process w fs apk
      = ((ensure_adb w.isWindows w.whichAdb w.connectOk w.httpStatus w.transportOk fs).fs,
         (ensure_adb w.isWindows w.whichAdb w.connectOk w.httpStatus w.transportOk fs).events
           ++ [Event.toolRun (adbPath w.isWindows w.whichAdb) ["devices"]]
           ++ [Event.log "Device profile not found."]) := by
  simp [flash_process, h₁, h₂, h₃]

/-- Claim C5 witness: a concrete run with adb on the search path, a
connected device and no config file halts with the profile not found
log after the device gate. -/
theorem c5_profile_miss_halts_witness :
    flash_process
        { isWindows := false
          whichAdb := some "/usr/bin/adb"
          connectOk := fun _ => true
          httpStatus := fun _ => 200
          transportOk := fun _ => true
          adbDevicesStdout := "List of devices attached\nABC123\tdevice\n"
          configExists := false
          config := []
          heimdallAvailable := true
          heimdallRc := 0
          heimdallOutput := []
          bootloaderUnlocked := true } [] none
      = ([], [Event.log "ADB found on system.",
              Event.toolRun "/usr/bin/adb" ["devices"],
              Event.log "Device profile not found."]) := by
  have h := c5_profile_miss_halts
    { isWindows := false
      whichAdb := some "/usr/bin/adb"
      connectOk := fun _ => true
      httpStatus := fun _ => 200
      transportOk := fun _ => true
      adbDevicesStdout := "List of devices attached\nABC123\tdevice\n"
      configExists := false
      config := []
      heimdallAvailable := true
      heimdallRc := 0
      heimdallOutput := []
      bootloaderUnlocked := true } [] none rfl (by decide) rfl
  simpa using h

/-- A concrete world whose device has a locked bootloader while a device
is connected, the profile store has the fixed entry, and every network
and tool interaction succeeds. -/
def lockedWorld : World where
  isWindows := false
  whichAdb := some "/usr/bin/adb"
  connectOk := fun _ => true
  httpStatus := fun _ => 200
  transportOk := fun _ => true
  adbDevicesStdout := "List of devices attached\nABC123\tdevice\n"
  configExists := true
  config := [("SM-J320FN",
    { recovery_url := "https://example.com/twrp.img"
      rom_url := "https://example.com/lineage.zip" })]
  heimdallAvailable := true
  heimdallRc := 0
  heimdallOutput := ["RECOVERY upload successful"]
  bootloaderUnlocked := false

/-- Claim C1 counterexample: the claim is false on the code. In a run
whose device reports a locked bootloader, flash_process still issues the
recovery image download request: the source contains no bootloader
unlock query at all, so the run neither halts before Acquire nor reports
a BootloaderLocked cause. -/
theorem c1_counterexample :
    lockedWorld.bootloaderUnlocked = false
      ∧ Event.request "https://example.com/twrp.img" ∈ (flash_process lockedWorld [] none).2 := by
  exact ⟨rfl, by decide⟩

/-- Claim C1 as amended: flash_process has no bootloader unlock gate.
Its whole behaviour, file system and event trace alike, is independent
of the bootloader unlock state of the device, and in particular the run
against a locked device with a connected device and a known profile
proceeds to the Acquire step and issues the download request instead of
halting with BootloaderLocked. -/
theorem c1_amended_no_unlock_gate :
    (∀ (w : World) (fs : List String) (apk : Option String) (b : Bool),
        flash_process { w with bootloaderUnlocked := b } fs apk = flash_process w fs apk)
      ∧ lockedWorld.bootloaderUnlocked = false
      ∧ Event.request "https://example.com/twrp.img"
          ∈ (flash_process lockedWorld [] none).2 := by
  refine ⟨fun w fs apk b => ?_, rfl, by decide⟩
  cases w
  rfl

end Flasher
